import Mathlib

/-!
Verification development for tinyi2s.c, the software I2S DMA driver for the
ESP8266 found at src/build/devices/esp/lib/tinyi2s/tinyi2s.c. The global C
state (the free-slot queue, the buffer pool pointer, the descriptor array,
the interrupt and pin configuration) is embedded as an explicit state record;
heap allocation is tracked with a list of live block addresses so that double
frees are observable; machine addresses are natural numbers with 0 playing
the role of the null pointer; register bit operations on the rate dividers
are kept as natural number bitwise operations.
-/

/-- Number of buffers in the I2S circular buffer; SLC_BUF_CNT in tinyi2s.c. -/
def SLC_BUF_CNT : Nat := 4

/-- Length of one buffer, in 32-bit words; SLC_BUF_LEN in tinyi2s.c. -/
def SLC_BUF_LEN : Nat := 64

/-- Modelled from the spec: the RX end-of-frame interrupt status bit SLCIRXEOF
is defined by the platform register header i2s_reg.h, which is not under src.
It is a fixed one-bit mask (bit 1 of the SLC interrupt status register on the
ESP8266); only the fact that it is a fixed nonzero mask matters below. -/
def SLCIRXEOF : Nat := 2

/-- Modelled from the spec: the base I2S clock frequency I2SBASEFREQ comes
from the platform register header i2s_reg.h, which is not under src; the spec
calls it the known base frequency, 160 MHz on the ESP8266. -/
def I2SBASEFREQ : Nat := 160000000

/-- Modelled from the spec: the six bit mask I2SCDM of the clock divider
register field, from the platform header i2s_reg.h (not under src); the code
itself uses I2SCDM as an unshifted mask when clearing the I2SCD field. -/
def I2SCDM : Nat := 63

/-- Modelled from the spec: the six bit mask I2SBDM of the bit clock divider
register field, from the platform header i2s_reg.h (not under src). -/
def I2SBDM : Nat := 63

/-- One DMA descriptor, struct slc_queue_item in tinyi2s.c. The C bitfield
widths (12, 12, 5, 1, 1, 1 bits and two 32-bit words) all hold the values the
driver writes without truncation, so the fields are modelled as naturals.
The next_link_ptr field stores the index of the next descriptor inside
i2s_slc_items; the C code stores the machine address of that descriptor. -/
structure SlcQueueItem where
  blocksize : Nat
  datalen : Nat
  unused : Nat
  sub_sof : Nat
  eof : Nat
  owner : Nat
  buf_ptr : Nat
  next_link_ptr : Nat
deriving Repr, DecidableEq, Inhabited

/-- Pin function selections used by the driver through pinMode. -/
inductive PinMode where
  | INPUT
  | FUNCTION_0
  | FUNCTION_1
deriving Repr, DecidableEq

/-- The global state of tinyi2s.c together with a minimal heap and device
model: i2s_slc_queue with its length is the bounded free-slot queue (the
underrun guard), i2s_slc_buf_pntr the buffer pool pointer returned by malloc,
i2s_slc_items the descriptor array, renderCalls the number of render callback
invocations so far, the Boolean flags mirror the interrupt attach and enable
state, the SLCIE register, the SLC descriptor address registers, the transfer
start bits and the I2S clock gate, liveAllocs lists the currently allocated
heap blocks, invalidFrees counts calls of free on a pointer that is not a
currently allocated block (an invalid or double free), and pin2, pin3, pin15
hold the pin configuration. -/
structure I2SState where
  i2s_slc_queue : List Nat
  i2s_slc_buf_pntr : Nat
  i2s_slc_items : List SlcQueueItem
  renderCalls : Nat
  intrAttached : Bool
  intrEnabled : Bool
  slcie_rxeof : Bool
  rxDescAddrSet : Bool
  txDescAddrSet : Bool
  dmaStarted : Bool
  txStarted : Bool
  clkEnabled : Bool
  liveAllocs : List Nat
  invalidFrees : Nat
  pin2 : PinMode
  pin3 : PinMode
  pin15 : PinMode
deriving Repr, DecidableEq

/-- The state at load time, before any call into the driver: all statics are
zero initialised, no allocation is live, pin 3 is the serial receive pin. -/
def initState : I2SState where
  i2s_slc_queue := []
  i2s_slc_buf_pntr := 0
  i2s_slc_items := []
  renderCalls := 0
  intrAttached := false
  intrEnabled := false
  slcie_rxeof := false
  rxDescAddrSet := false
  txDescAddrSet := false
  dmaStarted := false
  txStarted := false
  clkEnabled := false
  liveAllocs := []
  invalidFrees := 0
  pin2 := PinMode.INPUT
  pin3 := PinMode.FUNCTION_0
  pin15 := PinMode.INPUT

/-- Model of the C library free: freeing a live block removes it from the
heap; freeing any other pointer (in particular a block that was already
freed) is an invalid free and is counted in invalidFrees. -/
def freeCall (s : I2SState) (p : Nat) : I2SState :=
  if p ∈ s.liveAllocs then { s with liveAllocs := s.liveAllocs.erase p }
  else { s with invalidFrees := s.invalidFrees + 1 }

/-- i2s_slc_queue_next_item in tinyi2s.c: pop the top off the queue. Returns
the front element together with the remaining queue (the C code decrements
i2s_slc_queue_len and shifts every later entry down by one). -/
def i2s_slc_queue_next_item (q : List Nat) : Nat × List Nat :=
  (q.headD 0, q.tail)

/-- i2s_slc_isr in tinyi2s.c. The interrupt status word is read from SLCIS
and all pending flags are cleared; when the RX end-of-frame bit is set the
handler disables the interrupt source, invokes the render callback on the
finished buffer (modelled by incrementing renderCalls), evicts the oldest
queue entry when the queue already holds SLC_BUF_CNT-1 entries, appends the
finished buffer pointer and re-enables the interrupt source, so the net
state has intrEnabled true. The hardware register SLCRXEDA holding the
address of the finished descriptor is modelled by the index finishedIdx of
that descriptor in i2s_slc_items. The order of the individual actions is
captured separately by i2s_slc_isr_trace. -/
def i2s_slc_isr (s : I2SState) (slc_intr_status : Nat) (finishedIdx : Nat) : I2SState :=
  if slc_intr_status &&& SLCIRXEOF ≠ 0 then
    let finished_buf := (s.i2s_slc_items.getD finishedIdx default).buf_ptr
    let s1 := { s with renderCalls := s.renderCalls + 1, intrEnabled := true }
    let q1 := if SLC_BUF_CNT - 1 ≤ s1.i2s_slc_queue.length
      then (i2s_slc_queue_next_item s1.i2s_slc_queue).2
      else s1.i2s_slc_queue
    { s1 with i2s_slc_queue := q1 ++ [finished_buf] }
  else s

/-- The descriptor written by iteration x of the loop in i2s_slc_begin, where
base is the address returned by the single malloc of the buffer pool. -/
def mkSlcItem (base : Nat) (x : Nat) : SlcQueueItem where
  blocksize := SLC_BUF_LEN * 4
  datalen := SLC_BUF_LEN * 4
  unused := 0
  sub_sof := 0
  eof := 1
  owner := 1
  buf_ptr := base + x * (SLC_BUF_LEN * 4)
  next_link_ptr := if x < SLC_BUF_CNT - 1 then x + 1 else 0

/-- i2s_slc_begin in tinyi2s.c. mallocResult is the address returned by
malloc, with 0 for a failed allocation; the C code performs no null check and
runs the whole body either way. The queue length is reset, the pool pointer
stored, the loop invokes the render callback once per buffer (on pointers
derived from mallocResult, null based when the allocation failed) and writes
all SLC_BUF_CNT descriptors; then the DMA is configured, the TX and RX
descriptor address registers are set, the handler is attached, SLCIE is set
to the RX end-of-frame bit, the interrupt is enabled and the RX transfer is
started. -/
def i2s_slc_begin (s : I2SState) (mallocResult : Nat) : I2SState :=
  { s with
    i2s_slc_queue := []
    i2s_slc_buf_pntr := mallocResult
    liveAllocs := if mallocResult ≠ 0 then mallocResult :: s.liveAllocs else s.liveAllocs
    i2s_slc_items := (List.range SLC_BUF_CNT).map (mkSlcItem mallocResult)
    renderCalls := s.renderCalls + SLC_BUF_CNT
    intrAttached := true
    intrEnabled := true
    slcie_rxeof := true
    rxDescAddrSet := true
    txDescAddrSet := true
    dmaStarted := true }

/-- i2s_slc_end in tinyi2s.c: disable the interrupt source, clear the pending
interrupt flags, clear SLCIE, clear the TX and then the RX descriptor address
registers. -/
def i2s_slc_end (s : I2SState) : I2SState :=
  { s with
    intrEnabled := false
    slcie_rxeof := false
    rxDescAddrSet := false
    txDescAddrSet := false }

/-- The clock divider computed in i2s_begin:
(I2SBASEFREQ/(rate*32)) masked with I2SCDM. -/
def i2s_clock_div (rate : Nat) : Nat :=
  (I2SBASEFREQ / (rate * 32)) &&& I2SCDM

/-- The bit clock divider computed in i2s_begin:
(I2SBASEFREQ/(rate*i2s_clock_div*2)) masked with I2SBDM. In C this division
is undefined when the divisor is zero; natural number division by zero gives
zero here, and i2s_bck_div_checked below records exactly where the C
expression is well defined. -/
def i2s_bck_div (rate : Nat) : Nat :=
  (I2SBASEFREQ / (rate * i2s_clock_div rate * 2)) &&& I2SBDM

/-- The same bit clock divider computation with the division guarded: none
exactly when the C code would divide by zero. -/
def i2s_bck_div_checked (rate : Nat) : Option Nat :=
  if rate * i2s_clock_div rate * 2 = 0 then none
  else some ((I2SBASEFREQ / (rate * i2s_clock_div rate * 2)) &&& I2SBDM)

/-- The output rate reconstructed from the two divisors,
I2SBASEFREQ/(clockDivider*bitclockDivider*2), the quantity printed by the
commented os_printf line of i2s_begin. -/
def reconstructedRate (rate : Nat) : Nat :=
  I2SBASEFREQ / (i2s_clock_div rate * i2s_bck_div rate * 2)

/-- i2s_begin in tinyi2s.c: store the render callback and its refcon, run
i2s_slc_begin (with the result of its malloc passed through), set pins 2, 3
and 15 to FUNCTION_1, enable the I2S clock, reset and configure the I2S
peripheral, apply the rate divisors (the pure functions i2s_clock_div and
i2s_bck_div above) and start transmission. -/
def i2s_begin (s : I2SState) (mallocResult : Nat) (rate : Nat) : I2SState :=
  let s1 := i2s_slc_begin s mallocResult
  { s1 with
    pin2 := PinMode.FUNCTION_1
    pin3 := PinMode.FUNCTION_1
    pin15 := PinMode.FUNCTION_1
    clkEnabled := true
    txStarted := true }

/-- i2s_end in tinyi2s.c: disable the I2S clock, run i2s_slc_end, free the
buffer pool when i2s_slc_buf_pntr is nonzero (the pointer is not set back to
null by the C code), reset the I2S peripheral, set pins 2 and 15 back to
INPUT and pin 3 back to FUNCTION_0 (serial receive). -/
def i2s_end (s : I2SState) : I2SState :=
  let s1 := { s with clkEnabled := false }
  let s2 := i2s_slc_end s1
  let s3 := if s2.i2s_slc_buf_pntr ≠ 0 then freeCall s2 s2.i2s_slc_buf_pntr else s2
  { s3 with
    pin2 := PinMode.INPUT
    pin3 := PinMode.FUNCTION_0
    pin15 := PinMode.INPUT }

/-- Run a sequence of interrupt invocations; each event carries the SLC
interrupt status word and the index of the finished descriptor. -/
def runIsrEvents (s : I2SState) (events : List (Nat × Nat)) : I2SState :=
  events.foldl (fun st e => i2s_slc_isr st e.1 e.2) s

/-- The observable actions of one invocation of i2s_slc_isr. -/
inductive IsrAction where
  | readStatus
  | clearIntFlags
  | intrDisable
  | renderCall
  | evictOldest
  | pushQueue
  | intrEnable
deriving Repr, DecidableEq

/-- The actions performed by i2s_slc_isr, in program order: the status is
read and the pending flags cleared; when the RX end-of-frame bit is set the
interrupt source is disabled, the render callback invoked, the oldest queue
entry evicted when the queue is at capacity, the finished buffer pushed and
the interrupt source re-enabled. -/
def i2s_slc_isr_trace (s : I2SState) (slc_intr_status : Nat) : List IsrAction :=
  [IsrAction.readStatus, IsrAction.clearIntFlags] ++
    (if slc_intr_status &&& SLCIRXEOF ≠ 0 then
      [IsrAction.intrDisable, IsrAction.renderCall] ++
        (if SLC_BUF_CNT - 1 ≤ s.i2s_slc_queue.length then [IsrAction.evictOldest] else []) ++
        [IsrAction.pushQueue, IsrAction.intrEnable]
    else [])

/-- The teardown steps of i2s_end, including those of i2s_slc_end. -/
inductive StopAction where
  | clockDisable
  | intrDisable
  | clearIntFlags
  | clearIntEnable
  | clearTxDescAddr
  | clearRxDescAddr
  | freeBufferPool
  | i2sReset
  | restorePins
deriving Repr, DecidableEq

/-- The steps performed by i2s_end, in program order: I2S_CLK_DISABLE comes
first, then i2s_slc_end (interrupt disable, pending flag clear, SLCIE clear,
TX then RX descriptor address clear), then the conditional free of the
buffer pool, then the I2S reset and the pin restoration. -/
def i2s_end_trace (s : I2SState) : List StopAction :=
  [StopAction.clockDisable, StopAction.intrDisable, StopAction.clearIntFlags,
      StopAction.clearIntEnable, StopAction.clearTxDescAddr, StopAction.clearRxDescAddr] ++
    (if s.i2s_slc_buf_pntr ≠ 0 then [StopAction.freeBufferPool] else []) ++
    [StopAction.i2sReset, StopAction.restorePins]

/-- Follow the next_link_ptr field of descriptor i once. -/
def ringNext (items : List SlcQueueItem) (i : Nat) : Nat :=
  (items.getD i default).next_link_ptr

/-- Follow the next_link_ptr field k times starting from descriptor i. -/
def ringIterate (items : List SlcQueueItem) (k : Nat) (i : Nat) : Nat :=
  match k with
  | 0 => i
  | n + 1 => ringIterate items n (ringNext items i)

/-! Helper lemmas. -/

lemma i2s_begin_items (s : I2SState) (m r : Nat) :
    (i2s_begin s m r).i2s_slc_items =
      [mkSlcItem m 0, mkSlcItem m 1, mkSlcItem m 2, mkSlcItem m 3] := rfl

lemma i2s_begin_queue (s : I2SState) (m r : Nat) :
    (i2s_begin s m r).i2s_slc_queue = [] := rfl

lemma i2s_begin_renderCalls (s : I2SState) (m r : Nat) :
    (i2s_begin s m r).renderCalls = s.renderCalls + SLC_BUF_CNT := rfl

lemma runIsrEvents_nil (s : I2SState) : runIsrEvents s [] = s := rfl

lemma runIsrEvents_cons (s : I2SState) (e : Nat × Nat) (es : List (Nat × Nat)) :
    runIsrEvents s (e :: es) = runIsrEvents (i2s_slc_isr s e.1 e.2) es := rfl

lemma push_evict_length (q : List Nat) (b : Nat) (h : q.length ≤ 3) :
    ((if 3 ≤ q.length then q.tail else q) ++ [b]).length ≤ 3 := by
  split <;> simp [List.length_append, List.length_tail] <;> omega

lemma i2s_slc_isr_queue_length (s : I2SState) (status idx : Nat)
    (h : s.i2s_slc_queue.length ≤ SLC_BUF_CNT - 1) :
    (i2s_slc_isr s status idx).i2s_slc_queue.length ≤ SLC_BUF_CNT - 1 := by
  have h3 : s.i2s_slc_queue.length ≤ 3 := h
  unfold i2s_slc_isr
  by_cases hb : status &&& SLCIRXEOF ≠ 0
  · rw [if_pos hb]
    exact push_evict_length s.i2s_slc_queue _ h3
  · rw [if_neg hb]
    exact h

lemma runIsrEvents_queue_length (events : List (Nat × Nat)) :
    ∀ s : I2SState, s.i2s_slc_queue.length ≤ SLC_BUF_CNT - 1 →
      (runIsrEvents s events).i2s_slc_queue.length ≤ SLC_BUF_CNT - 1 := by
  induction events with
  | nil => intro s h; exact h
  | cons e es ih =>
    intro s h
    rw [runIsrEvents_cons]
    exact ih _ (i2s_slc_isr_queue_length s e.1 e.2 h)

lemma i2s_slc_isr_renderCalls (s : I2SState) (status idx : Nat)
    (h : status &&& SLCIRXEOF ≠ 0) :
    (i2s_slc_isr s status idx).renderCalls = s.renderCalls + 1 := by
  unfold i2s_slc_isr
  rw [if_pos h]

lemma runIsrEvents_renderCalls (events : List (Nat × Nat)) :
    ∀ s : I2SState, (∀ e ∈ events, e.1 &&& SLCIRXEOF ≠ 0) →
      (runIsrEvents s events).renderCalls = s.renderCalls + events.length := by
  induction events with
  | nil => intro s _; simp [runIsrEvents_nil]
  | cons e es ih =>
    intro s h
    rw [runIsrEvents_cons, ih _ (fun x hx => h x (List.mem_cons_of_mem e hx)),
      i2s_slc_isr_renderCalls s e.1 e.2 (h e (List.mem_cons_self e es)),
      List.length_cons]
    omega

/-! Claim theorems. -/

/-- Claim C1 (code bug): the claim demands that a second stop after a
completed start and stop is a safe no-op that does not free the buffer pool
twice. The code violates this: i2s_end frees i2s_slc_buf_pntr when it is
nonzero but never clears it, so after start followed by stop (which releases
the pool exactly once and leaves no live allocation) the pointer still holds
the freed address 1000 and a second i2s_end passes the already freed pointer
to free again, an invalid (double) free. -/
theorem double_stop_performs_invalid_free :
    (i2s_end (i2s_begin initState 1000 16000)).liveAllocs = []
    ∧ (i2s_end (i2s_begin initState 1000 16000)).invalidFrees = 0
    ∧ (i2s_end (i2s_begin initState 1000 16000)).i2s_slc_buf_pntr = 1000
    ∧ (i2s_end (i2s_end (i2s_begin initState 1000 16000))).invalidFrees = 1 := by
  decide

/-- Claim C2 (code bug): the claim demands that when the buffer pool
allocation fails, start reports AllocationError, leaves the session Stopped
and attaches no interrupt. The code violates this: i2s_slc_begin performs no
null check on the malloc result and i2s_begin returns void, so with a failed
allocation (malloc result 0) the driver still invokes the render callback on
all four null based buffer pointers, wires the full descriptor ring, attaches
and enables the interrupt and starts the transfer. -/
theorem malloc_failure_still_wires_and_attaches :
    (i2s_begin initState 0 16000).intrAttached = true
    ∧ (i2s_begin initState 0 16000).intrEnabled = true
    ∧ (i2s_begin initState 0 16000).slcie_rxeof = true
    ∧ (i2s_begin initState 0 16000).renderCalls = SLC_BUF_CNT
    ∧ (i2s_begin initState 0 16000).i2s_slc_items.length = SLC_BUF_CNT
    ∧ ((i2s_begin initState 0 16000).i2s_slc_items.getD 0 default).buf_ptr = 0
    ∧ (i2s_begin initState 0 16000).txStarted = true := by
  decide

/-- Claim C9, counterexample: at the representative rate 16000 with the known
base frequency I2SBASEFREQ the reconstructed rate
I2SBASEFREQ/(i2s_clock_div*i2s_bck_div*2) is 57142, which is not within one
unit of 16000. -/
theorem rate_16000_not_within_one_unit :
    ¬ (reconstructedRate 16000 ≤ 16000 + 1 ∧ 16000 ≤ reconstructedRate 16000 + 1) := by
  decide

/-- Claim C9, amended: at rate 16000 with base frequency I2SBASEFREQ the
divider computation of i2s_begin yields clock divider 56 and bit clock
divider 25 (the six bit register mask truncates the unmasked quotient 312),
and the reconstructed rate I2SBASEFREQ/(56*25*2) is 57142, far from the
requested 16000 rather than within one unit of it. -/
theorem rate_16000_divider_values :
    i2s_clock_div 16000 = 56 ∧ i2s_bck_div 16000 = 25
    ∧ reconstructedRate 16000 = 57142 := by
  decide

/-- Claim C3: the underrun guard i2s_slc_queue has bounded capacity
SLC_BUF_CNT - 1 = 3; its length never exceeds that capacity after any
sequence of interrupt events following a start, and when the handler pushes
while the guard is already at capacity the oldest entry (the queue front) is
evicted, the new buffer pointer is appended at the back and the resulting
length is exactly SLC_BUF_CNT - 1. -/
theorem underrun_guard_bounded_and_evicts_oldest :
    (∀ (s : I2SState) (m r : Nat) (events : List (Nat × Nat)),
        (runIsrEvents (i2s_begin s m r) events).i2s_slc_queue.length ≤ SLC_BUF_CNT - 1)
    ∧ (∀ (s : I2SState) (status idx : Nat),
        status &&& SLCIRXEOF ≠ 0 →
        s.i2s_slc_queue.length = SLC_BUF_CNT - 1 →
          (i2s_slc_isr s status idx).i2s_slc_queue
              = s.i2s_slc_queue.tail ++ [(s.i2s_slc_items.getD idx default).buf_ptr]
            ∧ (i2s_slc_isr s status idx).i2s_slc_queue.length = SLC_BUF_CNT - 1) := by
  constructor
  · intro s m r events
    apply runIsrEvents_queue_length
    rw [i2s_begin_queue]
    simp
  · intro s status idx hb hlen
    have hq : SLC_BUF_CNT - 1 ≤ s.i2s_slc_queue.length := le_of_eq hlen.symm
    constructor
    · unfold i2s_slc_isr
      rw [if_pos hb]
      show (if SLC_BUF_CNT - 1 ≤ s.i2s_slc_queue.length
          then (i2s_slc_queue_next_item s.i2s_slc_queue).2
          else s.i2s_slc_queue) ++ _ = _
      rw [if_pos hq]
      rfl
    · unfold i2s_slc_isr
      rw [if_pos hb]
      show ((if SLC_BUF_CNT - 1 ≤ s.i2s_slc_queue.length
          then (i2s_slc_queue_next_item s.i2s_slc_queue).2
          else s.i2s_slc_queue) ++ _).length = SLC_BUF_CNT - 1
      rw [if_pos hq]
      simp only [i2s_slc_queue_next_item, SLC_BUF_CNT, List.length_append,
        List.length_tail, List.length_cons, List.length_nil] at hlen ⊢
      omega

/-- Witness for claim C3: from a started session two completion events keep
the guard within capacity, and a push onto a guard already holding the three
entries 5, 6, 7 evicts the oldest entry 5 and appends the finished buffer
pointer at the back, leaving length three. -/
theorem underrun_guard_bounded_and_evicts_oldest_witness :
    (runIsrEvents (i2s_begin initState 1000 16000)
          [(SLCIRXEOF, 0), (SLCIRXEOF, 1)]).i2s_slc_queue.length ≤ SLC_BUF_CNT - 1
    ∧ ((i2s_slc_isr { initState with i2s_slc_queue := [5, 6, 7] } SLCIRXEOF 0).i2s_slc_queue
          = ({ initState with i2s_slc_queue := [5, 6, 7] } : I2SState).i2s_slc_queue.tail
              ++ [(({ initState with i2s_slc_queue := [5, 6, 7] } :
                    I2SState).i2s_slc_items.getD 0 default).buf_ptr]
        ∧ (i2s_slc_isr { initState with i2s_slc_queue := [5, 6, 7] }
              SLCIRXEOF 0).i2s_slc_queue.length = SLC_BUF_CNT - 1) :=
  ⟨underrun_guard_bounded_and_evicts_oldest.1 initState 1000 16000
      [(SLCIRXEOF, 0), (SLCIRXEOF, 1)],
    underrun_guard_bounded_and_evicts_oldest.2
      { initState with i2s_slc_queue := [5, 6, 7] } SLCIRXEOF 0
      (by decide) (by decide)⟩

/-- Claim C4: after a successful start (nonzero malloc result, render call
counter starting at zero) followed by any sequence of completion interrupt
events (each with the RX end-of-frame bit set in its status word), the render
callback has been invoked exactly the number of events plus SLC_BUF_CNT
times: SLC_BUF_CNT pre-fill calls during start and one call per completion
event thereafter. -/
theorem render_calls_prefill_plus_completions (s : I2SState) (m r : Nat)
    (events : List (Nat × Nat)) (hm : m ≠ 0) (hs : s.renderCalls = 0)
    (he : ∀ e ∈ events, e.1 &&& SLCIRXEOF ≠ 0) :
    (runIsrEvents (i2s_begin s m r) events).renderCalls
      = events.length + SLC_BUF_CNT := by
  rw [runIsrEvents_renderCalls events _ he, i2s_begin_renderCalls, hs]
  omega

/-- Witness for claim C4: a start with malloc result 1000 followed by two
completion events yields exactly 2 + SLC_BUF_CNT render callback calls. -/
theorem render_calls_prefill_plus_completions_witness :
    (runIsrEvents (i2s_begin initState 1000 16000)
        [(SLCIRXEOF, 0), (SLCIRXEOF, 3)]).renderCalls = 2 + SLC_BUF_CNT :=
  render_calls_prefill_plus_completions initState 1000 16000
    [(SLCIRXEOF, 0), (SLCIRXEOF, 3)] (by decide) rfl (by decide)

lemma getD_begin_items (s : I2SState) (m r i : Nat) (hi : i < SLC_BUF_CNT) :
    (i2s_begin s m r).i2s_slc_items.getD i default = mkSlcItem m i := by
  have h4 : i < 4 := hi
  interval_cases i <;> rfl

lemma ringNext_begin (s : I2SState) (m r i : Nat) (hi : i < SLC_BUF_CNT) :
    ringNext (i2s_begin s m r).i2s_slc_items i = (i + 1) % SLC_BUF_CNT := by
  have h4 : i < 4 := hi
  interval_cases i <;> rfl

lemma ringIterate_begin (s : I2SState) (m r : Nat) :
    ∀ (k i : Nat), i < SLC_BUF_CNT →
      ringIterate (i2s_begin s m r).i2s_slc_items k i = (i + k) % SLC_BUF_CNT := by
  intro k
  induction k with
  | zero =>
    intro i hi
    have h4 : i < 4 := hi
    show i = (i + 0) % SLC_BUF_CNT
    show i = (i + 0) % 4
    omega
  | succ n ih =>
    intro i hi
    have h4 : i < 4 := hi
    rw [show ringIterate (i2s_begin s m r).i2s_slc_items (n + 1) i
          = ringIterate (i2s_begin s m r).i2s_slc_items n
              (ringNext (i2s_begin s m r).i2s_slc_items i) from rfl,
      ringNext_begin s m r i hi,
      ih ((i + 1) % SLC_BUF_CNT) (Nat.mod_lt _ (by decide))]
    show ((i + 1) % 4 + n) % 4 = (i + (n + 1)) % 4
    omega

/-- Claim C5: after start wires the descriptor ring, the SLC_BUF_CNT
descriptors form a single cycle of length exactly SLC_BUF_CNT: following the
next_link_ptr field SLC_BUF_CNT times from any descriptor returns to the
starting descriptor, and no smaller positive number of steps does. -/
theorem descriptor_ring_cycle_length_four (s : I2SState) (m r i : Nat)
    (hi : i < SLC_BUF_CNT) :
    ringIterate (i2s_begin s m r).i2s_slc_items SLC_BUF_CNT i = i
    ∧ ∀ k, 0 < k → k < SLC_BUF_CNT →
        ringIterate (i2s_begin s m r).i2s_slc_items k i ≠ i := by
  have h4 : i < 4 := hi
  constructor
  · rw [ringIterate_begin s m r SLC_BUF_CNT i hi]
    show (i + 4) % 4 = i
    omega
  · intro k hk1 hk2
    have hk4 : k < 4 := hk2
    rw [ringIterate_begin s m r k i hi]
    show (i + k) % 4 ≠ i
    omega

/-- Witness for claim C5: from descriptor 2 of a started session, four steps
along next_link_ptr return to descriptor 2 while two steps do not. -/
theorem descriptor_ring_cycle_length_four_witness :
    ringIterate (i2s_begin initState 1000 16000).i2s_slc_items SLC_BUF_CNT 2 = 2
    ∧ ringIterate (i2s_begin initState 1000 16000).i2s_slc_items 2 2 ≠ 2 :=
  ⟨(descriptor_ring_cycle_length_four initState 1000 16000 2 (by decide)).1,
    (descriptor_ring_cycle_length_four initState 1000 16000 2 (by decide)).2
      2 (by decide) (by decide)⟩

/-- Claim C8: after a successful start (nonzero malloc result) every
descriptor holds a nonzero buffer pointer, blocksize and datalen both equal
the buffer length in bytes SLC_BUF_LEN * 4, the end-of-frame bit is 1 and the
ownership bit is 1 (hardware owns), and no two descriptors share the same
buffer pointer. -/
theorem descriptors_wired_after_begin (s : I2SState) (m r : Nat) (hm : m ≠ 0) :
    (∀ i, i < SLC_BUF_CNT →
        ((i2s_begin s m r).i2s_slc_items.getD i default).buf_ptr ≠ 0
        ∧ ((i2s_begin s m r).i2s_slc_items.getD i default).blocksize = SLC_BUF_LEN * 4
        ∧ ((i2s_begin s m r).i2s_slc_items.getD i default).datalen = SLC_BUF_LEN * 4
        ∧ ((i2s_begin s m r).i2s_slc_items.getD i default).eof = 1
        ∧ ((i2s_begin s m r).i2s_slc_items.getD i default).owner = 1)
    ∧ ∀ i j, i < SLC_BUF_CNT → j < SLC_BUF_CNT → i ≠ j →
        ((i2s_begin s m r).i2s_slc_items.getD i default).buf_ptr
          ≠ ((i2s_begin s m r).i2s_slc_items.getD j default).buf_ptr := by
  constructor
  · intro i hi
    rw [getD_begin_items s m r i hi]
    refine ⟨?_, rfl, rfl, rfl, rfl⟩
    show m + i * (SLC_BUF_LEN * 4) ≠ 0
    show m + i * (64 * 4) ≠ 0
    omega
  · intro i j hi hj hij
    rw [getD_begin_items s m r i hi, getD_begin_items s m r j hj]
    show m + i * (SLC_BUF_LEN * 4) ≠ m + j * (SLC_BUF_LEN * 4)
    show m + i * (64 * 4) ≠ m + j * (64 * 4)
    omega

/-- Witness for claim C8: in a session started with malloc result 1000,
descriptor 0 has a nonzero buffer pointer and descriptors 0 and 1 have
distinct buffer pointers. -/
theorem descriptors_wired_after_begin_witness :
    ((i2s_begin initState 1000 16000).i2s_slc_items.getD 0 default).buf_ptr ≠ 0
    ∧ ((i2s_begin initState 1000 16000).i2s_slc_items.getD 0 default).buf_ptr
        ≠ ((i2s_begin initState 1000 16000).i2s_slc_items.getD 1 default).buf_ptr :=
  ⟨((descriptors_wired_after_begin initState 1000 16000 (by decide)).1
      0 (by decide)).1,
    (descriptors_wired_after_begin initState 1000 16000 (by decide)).2
      0 1 (by decide) (by decide) (by decide)⟩

/-- Claim C6: for an invocation of the completion handler whose status word
has the RX end-of-frame bit set (the only interrupt class enabled by SLCIE),
the trace starts with the status read, the pending-flag clear and the
interrupt disable, ends with the interrupt re-enable, contains exactly one
disable, one render callback invocation and one re-enable, and the render
invocation lies strictly between the disable and the re-enable; and for an
invocation without that bit the handler performs no render invocation at
all, so every render call happens strictly inside a disable and re-enable
window. -/
theorem isr_disable_render_enable_order (s : I2SState) (status : Nat) :
    (status &&& SLCIRXEOF ≠ 0 →
        (i2s_slc_isr_trace s status).take 3
            = [IsrAction.readStatus, IsrAction.clearIntFlags, IsrAction.intrDisable]
        ∧ (i2s_slc_isr_trace s status).getLast? = some IsrAction.intrEnable
        ∧ (i2s_slc_isr_trace s status).count IsrAction.intrDisable = 1
        ∧ (i2s_slc_isr_trace s status).count IsrAction.intrEnable = 1
        ∧ (i2s_slc_isr_trace s status).count IsrAction.renderCall = 1
        ∧ (i2s_slc_isr_trace s status).indexOf IsrAction.intrDisable
            < (i2s_slc_isr_trace s status).indexOf IsrAction.renderCall
        ∧ (i2s_slc_isr_trace s status).indexOf IsrAction.renderCall
            < (i2s_slc_isr_trace s status).indexOf IsrAction.intrEnable)
    ∧ (status &&& SLCIRXEOF = 0 →
        (i2s_slc_isr_trace s status).count IsrAction.renderCall = 0) := by
  constructor
  · intro hb
    unfold i2s_slc_isr_trace
    rw [if_pos hb]
    by_cases hq : SLC_BUF_CNT - 1 ≤ s.i2s_slc_queue.length
    · rw [if_pos hq]
      decide
    · rw [if_neg hq]
      decide
  · intro hb
    unfold i2s_slc_isr_trace
    rw [if_neg (not_not_intro hb)]
    decide

/-- Witness for claim C6: with the RX end-of-frame status bit set the trace
from the load-time state contains exactly one render call, placed after the
disable and before the re-enable; with a zero status word there is none. -/
theorem isr_disable_render_enable_order_witness :
    ((i2s_slc_isr_trace initState SLCIRXEOF).count IsrAction.renderCall = 1
      ∧ (i2s_slc_isr_trace initState SLCIRXEOF).indexOf IsrAction.intrDisable
          < (i2s_slc_isr_trace initState SLCIRXEOF).indexOf IsrAction.renderCall)
    ∧ (i2s_slc_isr_trace initState 0).count IsrAction.renderCall = 0 :=
  ⟨⟨((isr_disable_render_enable_order initState SLCIRXEOF).1 (by decide)).2.2.2.2.1,
      ((isr_disable_render_enable_order initState SLCIRXEOF).1 (by decide)).2.2.2.2.2.1⟩,
    (isr_disable_render_enable_order initState 0).2 (by decide)⟩

/-- Claim C7, counterexample: in the stop trace of a running session the
interrupt disable does not precede the peripheral clock disable — i2s_end
calls I2S_CLK_DISABLE before i2s_slc_end disables the interrupt source, so
disabling the interrupt source does not precede every other step of stop. -/
theorem stop_intr_disable_not_first :
    ¬ ((i2s_end_trace (i2s_begin initState 1000 16000)).indexOf StopAction.intrDisable
        < (i2s_end_trace (i2s_begin initState 1000 16000)).indexOf StopAction.clockDisable) := by
  decide

/-- Claim C7, amended: on a state whose buffer pool pointer is nonzero,
i2s_end performs its teardown in the order: disable the peripheral clock
first, then disable the interrupt source, then clear the pending interrupt
flags, then clear the interrupt enable register, then clear the TX and RX
DMA descriptor address registers, then release the buffer pool, then reset
the I2S peripheral and restore the pin state; in particular the interrupt
disable precedes the flag clearing, the descriptor register clearing, the
buffer release and the pin restoration, but follows the clock disable. -/
theorem stop_teardown_order (s : I2SState) (h : s.i2s_slc_buf_pntr ≠ 0) :
    i2s_end_trace s
      = [StopAction.clockDisable, StopAction.intrDisable, StopAction.clearIntFlags,
          StopAction.clearIntEnable, StopAction.clearTxDescAddr, StopAction.clearRxDescAddr,
          StopAction.freeBufferPool, StopAction.i2sReset, StopAction.restorePins] := by
  unfold i2s_end_trace
  rw [if_pos h]
  rfl

/-- Witness for claim C7 as amended: the stop trace of a session started
with malloc result 1000 is exactly the nine-step sequence. -/
theorem stop_teardown_order_witness :
    i2s_end_trace (i2s_begin initState 1000 16000)
      = [StopAction.clockDisable, StopAction.intrDisable, StopAction.clearIntFlags,
          StopAction.clearIntEnable, StopAction.clearTxDescAddr, StopAction.clearRxDescAddr,
          StopAction.freeBufferPool, StopAction.i2sReset, StopAction.restorePins] :=
  stop_teardown_order (i2s_begin initState 1000 16000) (by decide)

/-- Claim C10: the bit clock divider computation of i2s_begin has no guard on
its divisor: it is well defined exactly when the masked clock divider is
nonzero (for a nonzero rate), and at the sample rate 78125 the masked
quotient (I2SBASEFREQ/(78125*32)) masked with I2SCDM is zero, so there the C
expression divides by zero. -/
theorem bck_div_division_guard :
    (∀ rate, rate ≠ 0 →
        ((i2s_bck_div_checked rate).isSome ↔ i2s_clock_div rate ≠ 0))
    ∧ i2s_clock_div 78125 = 0 ∧ i2s_bck_div_checked 78125 = none := by
  refine ⟨?_, by decide, by decide⟩
  intro rate hr
  unfold i2s_bck_div_checked
  by_cases hc : rate * i2s_clock_div rate * 2 = 0
  · rw [if_pos hc]
    simp only [Nat.mul_eq_zero] at hc
    have hcd : i2s_clock_div rate = 0 := by
      rcases hc with (h0 | h0) | h0
      · exact absurd h0 hr
      · exact h0
      · exact absurd h0 (by decide)
    simp [hcd]
  · rw [if_neg hc]
    have hcd : i2s_clock_div rate ≠ 0 := by
      intro h0
      exact hc (by rw [h0, Nat.mul_zero, Nat.zero_mul])
    simp [hcd]
/-- Witness for claim C10: at the nonzero rate 16000 the masked clock divider
is nonzero and the guarded bit clock divider computation succeeds. -/
theorem bck_div_division_guard_witness :
    (i2s_bck_div_checked 16000).isSome = true :=
  (bck_div_division_guard.1 16000 (by decide)).mpr (by decide)
